import Mathlib

/-!
Verification development for the n8n SQLite-to-PostgreSQL migration script
(`cmd-migrate-n8n-sqlite-to-postgres.py`).

The script is a sequential table-by-table copier.  We embed its pure logic
(column-name mapping, row transformation with boolean coercion and the JSON
validation no-op) directly, and the effectful parts (`migrate_table`,
`migrate_all`, `main`) as pure functions over an explicit environment that
supplies the results of each database interaction:

* destination column introspection (may raise),
* the source row-count query (may raise),
* fetching all source rows (may raise),
* whether each per-row `INSERT` raises (an oracle indexed by row position),
* a JSON-validity oracle for `json.loads`.

Effects are recorded in an event trace; the destination transaction is
modelled by a `pending` list of executed inserts that `rollback` clears and
the per-table `commit` turns into the committed rows.
-/

/-- A SQLite/PostgreSQL cell value as seen by the Python script: `None`,
an integer, a text string, a blob, or (after coercion) a boolean. -/
inductive Value where
  | null : Value
  | int (i : Int) : Value
  | text (s : String) : Value
  | blob (bs : List Nat) : Value
  | bool (b : Bool) : Value
deriving DecidableEq, Repr

/-- Python truthiness of a cell value, as used by `bool(value)`:
`0`, the empty string and the empty blob are falsy, everything else truthy. -/
def truthy : Value → Bool
  | Value.null => false
  | Value.int i => i != 0
  | Value.text s => s != ""
  | Value.blob bs => !bs.isEmpty
  | Value.bool b => b

/-- Python's `bool(value)` applied to a cell value. -/
def pyBool (v : Value) : Value := Value.bool (truthy v)

/-- `MIGRATION_ORDER`: the fixed table migration order of the script. -/
def MIGRATION_ORDER : List String :=
  ["migrations", "settings", "role", "scope", "role_scope", "user",
   "auth_identity", "auth_provider_sync_history", "user_api_keys",
   "project", "project_relation", "folder",
   "tag_entity", "annotation_tag_entity", "folder_tag",
   "credentials_entity", "shared_credentials",
   "workflow_entity", "shared_workflow", "workflow_history",
   "workflow_statistics", "workflows_tags", "workflow_dependency",
   "webhook_entity",
   "execution_entity", "execution_data", "execution_metadata",
   "execution_annotations", "execution_annotation_tags",
   "variables", "processed_data", "data_table", "data_table_column",
   "test_run", "test_case_execution",
   "installed_packages", "installed_nodes",
   "event_destinations",
   "insights_metadata", "insights_raw", "insights_by_period",
   "chat_hub_sessions", "chat_hub_messages",
   "invalid_auth_token"]

/-- `COLUMN_MAPPINGS`: per-table rename maps from lowercased SQLite column
names to canonical PostgreSQL column names, as hardcoded in the script. -/
def COLUMN_MAPPINGS : List (String × List (String × String)) :=
  [("installed_packages",
    [("packagename", "packageName"), ("installedversion", "installedVersion"),
     ("authorname", "authorName"), ("authoremail", "authorEmail")]),
   ("installed_nodes",
    [("latestversion", "latestVersion")]),
   ("auth_identity",
    [("userid", "userId"), ("providerid", "providerId"),
     ("providertype", "providerType"), ("createdat", "createdAt"),
     ("updatedat", "updatedAt")]),
   ("auth_provider_sync_history",
    [("providertype", "providerType")]),
   ("tag_entity",
    [("createdat", "createdAt"), ("updatedat", "updatedAt")]),
   ("workflows_tags",
    [("workflowid", "workflowId"), ("tagid", "tagId")]),
   ("workflow_statistics",
    [("workflowid", "workflowId"), ("latestEvent", "latestEvent"),
     ("rootcount", "rootCount")]),
   ("webhook_entity",
    [("workflowid", "workflowId"), ("webhookpath", "webhookPath"),
     ("webhookid", "webhookId"), ("pathlength", "pathLength")]),
   ("execution_data",
    [("workflowdata", "workflowData")]),
   ("workflow_history",
    [("versionid", "versionId"), ("workflowid", "workflowId"),
     ("createdat", "createdAt"), ("updatedat", "updatedAt")]),
   ("credentials_entity",
    [("createdat", "createdAt"), ("updatedat", "updatedAt")]),
   ("shared_credentials",
    [("credentialsid", "credentialsId"), ("projectid", "projectId")]),
   ("shared_workflow",
    [("workflowid", "workflowId"), ("projectid", "projectId")]),
   ("execution_metadata",
    [("executionid", "executionId")]),
   ("invalid_auth_token", []),
   ("execution_annotations",
    [("executionid", "executionId")]),
   ("annotation_tag_entity",
    [("createdat", "createdAt"), ("updatedat", "updatedAt")]),
   ("execution_annotation_tags",
    [("annotationid", "annotationId"), ("tagid", "tagId")]),
   ("execution_entity",
    [("workflowid", "workflowId"), ("retryof", "retryOf"),
     ("retrysuccessid", "retrySuccessId"), ("startedat", "startedAt"),
     ("stoppedat", "stoppedAt"), ("waitTill", "waitTill"),
     ("workflowdata", "workflowData"), ("customdata", "customData")]),
   ("processed_data",
    [("workflowid", "workflowId")]),
   ("folder",
    [("parentfolderid", "parentFolderId"), ("projectid", "projectId"),
     ("createdat", "createdAt"), ("updatedat", "updatedAt")]),
   ("folder_tag",
    [("folderid", "folderId"), ("tagid", "tagId")]),
   ("workflow_entity",
    [("createdat", "createdAt"), ("updatedat", "updatedAt"),
     ("versionid", "versionId"), ("triggercount", "triggerCount"),
     ("parentfolderid", "parentFolderId"), ("pindata", "pinData"),
     ("staticdata", "staticData")]),
   ("insights_metadata",
    [("metaid", "metaId"), ("workflowid", "workflowId"),
     ("projectid", "projectId"), ("workflowname", "workflowName"),
     ("projectname", "projectName")]),
   ("test_run",
    [("workflowid", "workflowId"), ("triggercount", "triggerCount"),
     ("runcreatedat", "runCreatedAt"), ("completedat", "completedAt"),
     ("errorcode", "errorCode"), ("errordetails", "errorDetails")]),
   ("user",
    [("firstname", "firstName"), ("lastname", "lastName"),
     ("createdat", "createdAt"), ("updatedat", "updatedAt"),
     ("personalizationanswers", "personalizationAnswers"),
     ("roleslug", "roleSlug"), ("ispending", "isPending"),
     ("mfasecret", "mfaSecret"), ("mfaenabled", "mfaEnabled"),
     ("mfarecoverycodes", "mfaRecoveryCodes")]),
   ("test_case_execution",
    [("testrunid", "testRunId"), ("executionid", "executionId"),
     ("errorcode", "errorCode"), ("errordetails", "errorDetails"),
     ("runcreatedat", "runCreatedAt"), ("completedat", "completedAt")]),
   ("project_relation",
    [("projectid", "projectId"), ("userid", "userId")]),
   ("data_table",
    [("projectid", "projectId"), ("createdat", "createdAt"),
     ("updatedat", "updatedAt")]),
   ("data_table_column",
    [("datatableid", "dataTableId")]),
   ("role_scope",
    [("roleslug", "roleSlug"), ("scopeslug", "scopeSlug")]),
   ("user_api_keys",
    [("userid", "userId"), ("apikey", "apiKey"),
     ("createdat", "createdAt"), ("updatedat", "updatedAt")]),
   ("insights_raw",
    [("metaid", "metaId"), ("createdat", "createdAt")]),
   ("insights_by_period",
    [("metaid", "metaId"), ("periodunit", "periodUnit"),
     ("periodfrom", "periodFrom"), ("periodto", "periodTo")]),
   ("chat_hub_sessions",
    [("ownerid", "ownerId"), ("credentialid", "credentialId"),
     ("workflowid", "workflowId"), ("createdat", "createdAt"),
     ("updatedat", "updatedAt")]),
   ("workflow_dependency",
    [("workflowid", "workflowId"), ("workflowversionid", "workflowVersionId"),
     ("dependencytype", "dependencyType"), ("dependencykey", "dependencyKey"),
     ("dependencyinfo", "dependencyInfo")]),
   ("chat_hub_messages",
    [("sessionid", "sessionId"), ("previousmessageid", "previousMessageId"),
     ("revisionofmessageid", "revisionOfMessageId"),
     ("retryofmessageid", "retryOfMessageId"), ("workflowid", "workflowId"),
     ("executionid", "executionId"), ("createdat", "createdAt"),
     ("updatedat", "updatedAt")])]

/-- Python `dict` lookup (`d.get(k)`) on an association list. -/
def dictGet {β : Type} (k : String) : List (String × β) → Option β
  | [] => none
  | (k', v) :: rest => if k = k' then some v else dictGet k rest

/-- Python's `str.lower()` (all column names here are ASCII, where
per-character lowering coincides with Python's behaviour). -/
def pyLower (s : String) : String := String.mk (s.data.map Char.toLower)

/-- `N8NMigrator.map_column_name`: map a SQLite column name to the
PostgreSQL column name via the table's rename map, defaulting to the
input name. -/
def map_column_name (table : String) (sqlite_col : String) : String :=
  match dictGet table COLUMN_MAPPINGS with
  | some m => (dictGet (pyLower sqlite_col) m).getD sqlite_col
  | none => sqlite_col

/-- The hardcoded `boolean_columns` list from `migrate_table`'s row loop. -/
def boolean_columns : List String :=
  ["active", "finished", "loadOnStartup", "systemRole", "disabled",
   "mfaEnabled", "isManaged", "isPending", "isArchived"]

/-- The hardcoded list of JSON-typed destination columns from
`migrate_table`'s row loop. -/
def json_columns : List String :=
  ["nodes", "connections", "settings", "staticData", "pinData", "meta",
   "workflowData"]

/-- The JSON-validation step of the row loop: if the value is text and the
destination column is JSON-typed, `json.loads` is attempted (`ok` is the
oracle for whether it succeeds); a failure is swallowed by
`except: pass`, so the value is returned unchanged on both branches. -/
def jsonStep (ok : String → Bool) (pg_col : String) (value : Value) : Value :=
  match value with
  | Value.text s =>
      if pg_col ∈ json_columns then
        if ok s then Value.text s else Value.text s
      else Value.text s
  | v => v

/-- The per-column value pipeline of the row loop: boolean coercion for the
hardcoded boolean columns (skipping `None`), then the JSON-validation
no-op. -/
def transformValue (ok : String → Bool) (pg_col : String) (value : Value) :
    Value :=
  let v1 := if pg_col ∈ boolean_columns ∧ value ≠ Value.null
            then pyBool value else value
  jsonStep ok pg_col v1

/-- A source row: the ordered column-name/value pairs of one SQLite row. -/
abbrev Row := List (String × Value)

/-- Python `dict` insertion `d[k] = v`: overwrite in place if the key
exists, otherwise append (insertion order preserved). -/
def dictInsert (k : String) (v : Value) : List (String × Value) →
    List (String × Value)
  | [] => [(k, v)]
  | (k', v') :: rest =>
      if k' = k then (k, v) :: rest else (k', v') :: dictInsert k v rest

/-- The row transformation of `migrate_table`: build the destination
`data` dict by mapping each source column name, keeping only columns that
exist in the destination, and applying the value pipeline. -/
def transformRow (ok : String → Bool) (table : String)
    (pg_columns : List String) (row : Row) : List (String × Value) :=
  row.foldl
    (fun data kv =>
      let pg_col := map_column_name table kv.1
      if pg_col ∈ pg_columns then
        dictInsert pg_col (transformValue ok pg_col kv.2) data
      else data)
    []

/-- One rename map round-trips: looking up the lowercased destination name
of any entry either returns that same destination name or finds no entry
(the latter happens for the dead entries whose key is not lowercase, such
as `latestEvent` and `waitTill`).  Either way a second application of the
mapping leaves the destination name unchanged. -/
def mappingRoundTrips (m : List (String × String)) : Bool :=
  m.all (fun p =>
    dictGet (pyLower p.2) m == some p.2 || dictGet (pyLower p.2) m == none)

/-- Every per-table rename map of `COLUMN_MAPPINGS` round-trips. -/
def allRoundTrips : Bool :=
  COLUMN_MAPPINGS.all (fun p => mappingRoundTrips p.2)

/-- Observable effects of one table migration, in order of occurrence. -/
inductive Event where
  | warnMissing (table : String) : Event
  | countQuery (table : String) : Event
  | fetch (table : String) : Event
  | insertAttempt (table : String) (columns : List String)
      (values : List Value) : Event
  | logError (table : String) (columns : List String)
      (preview : List Value) : Event
  | rollback : Event
  | commit : Event
  | tableError (table : String) (msg : String) : Event
deriving DecidableEq, Repr

/-- State of the per-row loop of `migrate_table`: the two counters, the
destination transaction's pending inserts (executed since the last
commit/rollback), and the event trace so far. -/
structure LoopState where
  inserted : Nat
  skipped : Nat
  pending : List (List String × List Value)
  events : List Event
deriving DecidableEq, Repr

/-- The `for row in rows` loop of `migrate_table`.  `insertOk i` tells
whether the `INSERT` for the row at position `i` executes without raising.
On success the insert joins the pending transaction; on failure the error
is logged with the row's columns and the first three values, the whole
pending transaction is rolled back, the row is counted as skipped, and the
loop continues. -/
def migrateRows (ok : String → Bool) (insertOk : Nat → Bool)
    (table : String) (pg_columns : List String) :
    List Row → Nat → LoopState → LoopState
  | [], _, st => st
  | row :: rest, i, st =>
      let data := transformRow ok table pg_columns row
      if data.isEmpty then
        migrateRows ok insertOk table pg_columns rest (i + 1)
          { st with skipped := st.skipped + 1 }
      else
        let columns := data.map Prod.fst
        let values := data.map Prod.snd
        if insertOk i then
          migrateRows ok insertOk table pg_columns rest (i + 1)
            { st with
              inserted := st.inserted + 1
              pending := st.pending ++ [(columns, values)]
              events := st.events ++ [Event.insertAttempt table columns values] }
        else
          migrateRows ok insertOk table pg_columns rest (i + 1)
            { st with
              skipped := st.skipped + 1
              pending := []
              events := st.events ++
                [Event.insertAttempt table columns values,
                 Event.logError table columns (values.take 3),
                 Event.rollback] }

/-- Environment supplying the outcomes of `migrate_table`'s database
interactions for one table: destination column introspection, the source
`COUNT(*)` query, the source fetch, the per-row insert oracle, and the
`json.loads` validity oracle. -/
structure TableEnv where
  pgColumns : Except String (List String)
  countResult : Except String Nat
  fetchResult : Except String (List Row)
  insertOk : Nat → Bool
  jsonOk : String → Bool

/-- Result of one table migration: the returned `(inserted, skipped)`
counters, the event trace, and the rows the final commit made durable. -/
structure TableResult where
  inserted : Nat
  skipped : Nat
  events : List Event
  committed : List (List String × List Value)
deriving DecidableEq, Repr

/-- The body of `migrate_table` up to (but not including) its outer
`except` handler: any database exception propagates as `Except.error`. -/
def migrate_table_run (env : TableEnv) (table : String) :
    Except String TableResult :=
  match env.pgColumns with
  | Except.error e => Except.error e
  | Except.ok pg_columns =>
      if pg_columns.isEmpty then
        Except.ok ⟨0, 0, [Event.warnMissing table], []⟩
      else
        match env.countResult with
        | Except.error e => Except.error e
        | Except.ok total_rows =>
            if total_rows = 0 then
              Except.ok ⟨0, 0, [Event.countQuery table], []⟩
            else
              match env.fetchResult with
              | Except.error e => Except.error e
              | Except.ok rows =>
                  let st := migrateRows env.jsonOk env.insertOk table
                    pg_columns rows 0
                    ⟨0, 0, [], [Event.countQuery table, Event.fetch table]⟩
                  Except.ok ⟨st.inserted, st.skipped,
                    st.events ++ [Event.commit], st.pending⟩

/-- `N8NMigrator.migrate_table`: the body wrapped in the outer `except`
handler, which logs the table-level error, rolls back, and returns
`(0, 0)` instead of propagating. -/
def migrate_table (env : TableEnv) (table : String) : TableResult :=
  match migrate_table_run env table with
  | Except.ok r => r
  | Except.error e => ⟨0, 0, [Event.tableError table e, Event.rollback], []⟩

/-- `N8NMigrator.migrate_all`: migrate every table of `MIGRATION_ORDER`
in order, collecting `(table, inserted, skipped)` stats. -/
def migrate_all (env : String → TableEnv) : List (String × Nat × Nat) :=
  MIGRATION_ORDER.map (fun table =>
    let r := migrate_table (env table) table
    (table, r.inserted, r.skipped))

/-- Observable effects of the whole run (`main`). -/
inductive RunEvent where
  | printTrace (msg : String) : RunEvent
  | closeConns : RunEvent
deriving DecidableEq, Repr

/-- Environment of a whole run: whether connecting succeeds, the per-table
environments, and whether the post-migration verification queries
succeed. -/
structure RunEnv where
  connectResult : Except String Unit
  tables : String → TableEnv
  verifyResult : Except String Unit

/-- Result of a whole run: the process exit code, the per-table stats, and
the run-level events. -/
structure RunResult where
  exitCode : Nat
  stats : List (String × Nat × Nat)
  events : List RunEvent

/-- `main`: connect, migrate all tables, verify; return 0 on completion
and 1 on an unhandled failure, printing the trace; the `finally` block
closes the connections in every case. -/
def mainRun (env : RunEnv) : RunResult :=
  match env.connectResult with
  | Except.error e => ⟨1, [], [RunEvent.printTrace e, RunEvent.closeConns]⟩
  | Except.ok _ =>
      let stats := migrate_all env.tables
      match env.verifyResult with
      | Except.error e =>
          ⟨1, stats, [RunEvent.printTrace e, RunEvent.closeConns]⟩
      | Except.ok _ => ⟨0, stats, [RunEvent.closeConns]⟩

theorem allRoundTrips_true : allRoundTrips = true := by decide

theorem dictGet_mem {β : Type} {k : String} {v : β} :
    ∀ {l : List (String × β)}, dictGet k l = some v → (k, v) ∈ l := by
  intro l
  induction l with
  | nil => intro h; exact absurd h (by simp [dictGet])
  | cons p rest ih =>
      intro h
      obtain ⟨k', v'⟩ := p
      by_cases hk : k = k'
      · subst hk
        simp [dictGet] at h
        subst h
        exact List.mem_cons_self _ _
      · simp [dictGet, hk] at h
        exact List.mem_cons_of_mem _ (ih h)

/-- C3: `map_column_name` is total and idempotent: when the table has no
rename map, or the lowercased column has no entry in it, the input column
name is returned unchanged; and applying the mapping twice equals applying
it once, for every table and column name. -/
theorem map_column_name_total_idempotent :
    (∀ table col, dictGet table COLUMN_MAPPINGS = none →
        map_column_name table col = col) ∧
    (∀ table col m, dictGet table COLUMN_MAPPINGS = some m →
        dictGet (pyLower col) m = none → map_column_name table col = col) ∧
    (∀ table col,
        map_column_name table (map_column_name table col) =
          map_column_name table col) := by
  refine ⟨?_, ?_, ?_⟩
  · intro table col htab
    simp [map_column_name, htab]
  · intro table col m htab hcol
    simp [map_column_name, htab, hcol]
  · intro table col
    cases htab : dictGet table COLUMN_MAPPINGS with
    | none => simp [map_column_name, htab]
    | some m =>
        cases hcol : dictGet (pyLower col) m with
        | none => simp [map_column_name, htab, hcol]
        | some v =>
            have hm : (table, m) ∈ COLUMN_MAPPINGS := dictGet_mem htab
            have hall := allRoundTrips_true
            unfold allRoundTrips at hall
            rw [List.all_eq_true] at hall
            have h1 : mappingRoundTrips m = true := by
              have := hall (table, m) hm
              simpa using this
            unfold mappingRoundTrips at h1
            rw [List.all_eq_true] at h1
            have hv : (pyLower col, v) ∈ m := dictGet_mem hcol
            have h2 := h1 (pyLower col, v) hv
            simp only [Bool.or_eq_true, beq_iff_eq] at h2
            rcases h2 with h2 | h2 <;>
              simp [map_column_name, htab, hcol, h2]

/-- C3 witness: concrete instances of totality (table with no rename map;
column with no entry) and of idempotence. -/
theorem map_column_name_total_idempotent_witness :
    map_column_name "variables" "id" = "id" ∧
    map_column_name "installed_nodes" "somecol" = "somecol" ∧
    map_column_name "installed_packages"
        (map_column_name "installed_packages" "PackageName") =
      map_column_name "installed_packages" "PackageName" :=
  ⟨map_column_name_total_idempotent.1 "variables" "id" rfl,
   map_column_name_total_idempotent.2.1 "installed_nodes" "somecol"
     [("latestversion", "latestVersion")] rfl rfl,
   map_column_name_total_idempotent.2.2 "installed_packages" "PackageName"⟩

/-- C2: for a destination column in the hardcoded boolean list, the value
pipeline maps `None` to `None`, any falsy non-null value (such as `0`) to
`false`, and any truthy value to `true`. -/
theorem boolean_coercion (ok : String → Bool) (pg_col : String) (v : Value)
    (h : pg_col ∈ boolean_columns) :
    (v = Value.null → transformValue ok pg_col v = Value.null) ∧
    (v ≠ Value.null → truthy v = false →
        transformValue ok pg_col v = Value.bool false) ∧
    (v ≠ Value.null → truthy v = true →
        transformValue ok pg_col v = Value.bool true) := by
  refine ⟨?_, ?_, ?_⟩
  · intro hv
    subst hv
    simp [transformValue, jsonStep]
  · intro hv htr
    simp [transformValue, if_pos (And.intro h hv), pyBool, htr, jsonStep]
  · intro hv htr
    simp [transformValue, if_pos (And.intro h hv), pyBool, htr, jsonStep]

/-- C2 witness: in the boolean column `active`, the stored `0` becomes
`false`, `None` stays `None`, and `7` becomes `true`. -/
theorem boolean_coercion_witness :
    transformValue (fun _ => true) "active" (Value.int 0) = Value.bool false ∧
    transformValue (fun _ => true) "active" Value.null = Value.null ∧
    transformValue (fun _ => true) "active" (Value.int 7) = Value.bool true :=
  ⟨(boolean_coercion (fun _ => true) "active" (Value.int 0)
      (by decide)).2.1 (by decide) rfl,
   (boolean_coercion (fun _ => true) "active" Value.null
      (by decide)).1 rfl,
   (boolean_coercion (fun _ => true) "active" (Value.int 7)
      (by decide)).2.2 (by decide) rfl⟩

/-- C7: for a destination column in the hardcoded JSON list and a text
value, the value pipeline returns the original text unchanged, for every
outcome of the `json.loads` oracle (the validation is a no-op with respect
to the stored value). -/
theorem json_validation_noop (ok : String → Bool) (pg_col : String)
    (s : String) (h : pg_col ∈ json_columns) :
    transformValue ok pg_col (Value.text s) = Value.text s := by
  have hb : pg_col ∉ boolean_columns := by
    fin_cases h <;> decide
  simp [transformValue, hb, jsonStep]

/-- C7 witness: invalid JSON text in the `nodes` column passes through
unchanged when the parse oracle reports failure. -/
theorem json_validation_noop_witness :
    transformValue (fun _ => false) "nodes" (Value.text "not json") =
      Value.text "not json" :=
  json_validation_noop (fun _ => false) "nodes" "not json" (by decide)

/-- C5: a row whose transformed destination mapping is empty is counted as
skipped exactly once and causes no insert attempt: the loop continues on
the remaining rows with only the skip counter incremented (pending
transaction, inserted counter and event trace untouched). -/
theorem empty_row_skipped (ok : String → Bool) (insertOk : Nat → Bool)
    (table : String) (pg_columns : List String) (row : Row)
    (rest : List Row) (i : Nat) (st : LoopState)
    (h : transformRow ok table pg_columns row = []) :
    migrateRows ok insertOk table pg_columns (row :: rest) i st =
      migrateRows ok insertOk table pg_columns rest (i + 1)
        { st with skipped := st.skipped + 1 } := by
  simp [migrateRows, h]

/-- C5 witness: a row whose only column does not exist in the destination
is skipped without any insert attempt. -/
theorem empty_row_skipped_witness :
    migrateRows (fun _ => true) (fun _ => true) "settings" ["id"]
        [[("x", Value.int 1)]] 0 ⟨0, 0, [], []⟩ =
      migrateRows (fun _ => true) (fun _ => true) "settings" ["id"] [] 1
        ⟨0, 1, [], []⟩ :=
  empty_row_skipped (fun _ => true) (fun _ => true) "settings" ["id"]
    [("x", Value.int 1)] [] 0 ⟨0, 0, [], []⟩ (by decide)

/-- C1 (amended): when a row's insert fails, the error is logged with the
row's columns and a preview of the first three values, the table's entire
pending transaction is rolled back (not just that row's state), the skip
counter is incremented by one, and the loop continues with the next row of
the same table. -/
theorem insert_failure_row_recovery (ok : String → Bool)
    (insertOk : Nat → Bool) (table : String) (pg_columns : List String)
    (row : Row) (rest : List Row) (i : Nat) (st : LoopState)
    (hdata : transformRow ok table pg_columns row ≠ [])
    (hfail : insertOk i = false) :
    migrateRows ok insertOk table pg_columns (row :: rest) i st =
      migrateRows ok insertOk table pg_columns rest (i + 1)
        { st with
          skipped := st.skipped + 1
          pending := []
          events := st.events ++
            [Event.insertAttempt table
               ((transformRow ok table pg_columns row).map Prod.fst)
               ((transformRow ok table pg_columns row).map Prod.snd),
             Event.logError table
               ((transformRow ok table pg_columns row).map Prod.fst)
               (((transformRow ok table pg_columns row).map Prod.snd).take 3),
             Event.rollback] } := by
  have hne : (transformRow ok table pg_columns row).isEmpty = false := by
    cases hx : transformRow ok table pg_columns row with
    | nil => exact absurd hx hdata
    | cons a l => rfl
  simp [migrateRows, hne, hfail]

/-- C1 witness: a concrete failing insert is logged, rolled back, counted
as skipped, and the loop moves on. -/
theorem insert_failure_row_recovery_witness :
    migrateRows (fun _ => true) (fun _ => false) "settings" ["key"]
        [[("key", Value.text "a")]] 0 ⟨0, 0, [], []⟩ =
      migrateRows (fun _ => true) (fun _ => false) "settings" ["key"] [] 1
        ⟨0, 1, [],
         [Event.insertAttempt "settings" ["key"] [Value.text "a"],
          Event.logError "settings" ["key"] [Value.text "a"],
          Event.rollback]⟩ :=
  insert_failure_row_recovery (fun _ => true) (fun _ => false) "settings"
    ["key"] [("key", Value.text "a")] [] 0 ⟨0, 0, [], []⟩ (by decide) rfl

/-- Environment for the C1 counterexample: two source rows, the first
insert succeeds and the second raises. -/
def envC1 : TableEnv :=
  { pgColumns := Except.ok ["key"]
    countResult := Except.ok 2
    fetchResult := Except.ok
      [[("key", Value.text "a")], [("key", Value.text "b")]]
    insertOk := fun i => i == 0
    jsonOk := fun _ => true }

/-- C1 counterexample: the claim says a failing insert "rolls back only
that row's pending transaction state".  In this concrete run the first
row's insert succeeds and the second row's insert fails; the `rollback()`
issued for the second row discards the whole pending transaction, so
nothing at all is committed (`committed = []`) even though `inserted = 1`.
Under the claim as stated, the first row's insert would have survived to
the commit. -/
theorem rollback_discards_prior_inserts :
    (migrate_table envC1 "settings").inserted = 1 ∧
    (migrate_table envC1 "settings").skipped = 1 ∧
    (migrate_table envC1 "settings").committed = [] :=
  ⟨rfl, rfl, rfl⟩

theorem migrateRows_counts (ok : String → Bool) (insertOk : Nat → Bool)
    (table : String) (pg_columns : List String) :
    ∀ (rows : List Row) (i : Nat) (st : LoopState),
      (migrateRows ok insertOk table pg_columns rows i st).inserted +
          (migrateRows ok insertOk table pg_columns rows i st).skipped =
        st.inserted + st.skipped + rows.length := by
  intro rows
  induction rows with
  | nil => intro i st; simp [migrateRows]
  | cons row rest ih =>
      intro i st
      simp only [migrateRows]
      split
      · rw [ih]
        simp
        omega
      · split
        · rw [ih]
          simp
          omega
        · rw [ih]
          simp
          omega

/-- C10: when the per-row loop runs to completion (destination table
present, nonzero source count, fetch succeeded), every fetched row lands
in exactly one of the two counters: `inserted + skipped` equals the number
of fetched rows. -/
theorem counters_partition_rows (env : TableEnv) (table : String)
    (cols : List String) (n : Nat) (rows : List Row)
    (h1 : env.pgColumns = Except.ok cols) (h2 : cols ≠ [])
    (h3 : env.countResult = Except.ok n) (h4 : n ≠ 0)
    (h5 : env.fetchResult = Except.ok rows) :
    (migrate_table env table).inserted + (migrate_table env table).skipped =
      rows.length := by
  have hne : cols.isEmpty = false := by
    cases cols with
    | nil => exact absurd rfl h2
    | cons a l => rfl
  simp only [migrate_table, migrate_table_run, h1, hne, h3, h4, h5,
    if_neg h4, Bool.false_eq_true, if_false]
  simpa using migrateRows_counts env.jsonOk env.insertOk table cols rows 0
    ⟨0, 0, [], [Event.countQuery table, Event.fetch table]⟩

/-- Environment for the C10 witness: two rows, one inserts and one is
dropped for having no matching destination column. -/
def envC10 : TableEnv :=
  { pgColumns := Except.ok ["name"]
    countResult := Except.ok 2
    fetchResult := Except.ok
      [[("name", Value.text "a")], [("gone", Value.int 3)]]
    insertOk := fun _ => true
    jsonOk := fun _ => true }

/-- C10 witness: a concrete completed loop over two fetched rows has
`inserted + skipped = 2`. -/
theorem counters_partition_rows_witness :
    (migrate_table envC10 "role").inserted +
        (migrate_table envC10 "role").skipped =
      ([[("name", Value.text "a")], [("gone", Value.int 3)]] :
        List Row).length :=
  counters_partition_rows envC10 "role" ["name"] 2
    [[("name", Value.text "a")], [("gone", Value.int 3)]]
    rfl (by decide) rfl (by decide) rfl

/-- C9: for a table that exists in the destination, a zero source row
count returns `(0, 0)` at once: the only event is the count query itself,
so no rows are fetched and no insert is attempted. -/
theorem empty_source_short_circuits (env : TableEnv) (table : String)
    (cols : List String) (h1 : env.pgColumns = Except.ok cols)
    (h2 : cols ≠ []) (h3 : env.countResult = Except.ok 0) :
    migrate_table env table = ⟨0, 0, [Event.countQuery table], []⟩ := by
  have hne : cols.isEmpty = false := by
    cases cols with
    | nil => exact absurd rfl h2
    | cons a l => rfl
  simp [migrate_table, migrate_table_run, h1, hne, h3]

/-- Environment for the C9 witness: the destination table exists, the
source count is zero, and the fetch oracle is deliberately nonempty to
show it is never consulted. -/
def envC9 : TableEnv :=
  { pgColumns := Except.ok ["id"]
    countResult := Except.ok 0
    fetchResult := Except.ok [[("id", Value.int 1)]]
    insertOk := fun _ => true
    jsonOk := fun _ => true }

/-- C9 witness: concrete zero-count table migration returns `(0, 0)` with
only the count query in the trace. -/
theorem empty_source_short_circuits_witness :
    migrate_table envC9 "role" = ⟨0, 0, [Event.countQuery "role"], []⟩ :=
  empty_source_short_circuits envC9 "role" ["id"] rfl (by decide) rfl

/-- C4: when destination schema introspection returns an empty column
list, `migrate_table` returns `(0, 0)` with only the warning in its trace
(so no source row-count query is issued), and the body returns normally
(no exception propagates to the outer handler). -/
theorem missing_table_skipped (env : TableEnv) (table : String)
    (h : env.pgColumns = Except.ok []) :
    migrate_table env table = ⟨0, 0, [Event.warnMissing table], []⟩ ∧
    migrate_table_run env table =
      Except.ok ⟨0, 0, [Event.warnMissing table], []⟩ := by
  constructor <;> simp [migrate_table, migrate_table_run, h]

/-- Environment for the C4 witness: the table is absent from the
destination; the count and fetch oracles are poisoned with errors to show
they are never consulted. -/
def envC4 : TableEnv :=
  { pgColumns := Except.ok []
    countResult := Except.error "count query raised"
    fetchResult := Except.error "fetch raised"
    insertOk := fun _ => true
    jsonOk := fun _ => true }

/-- C4 witness: a concrete absent destination table yields `(0, 0)` and a
warning, with no exception even though the later queries would raise. -/
theorem missing_table_skipped_witness :
    migrate_table envC4 "scope" =
      ⟨0, 0, [Event.warnMissing "scope"], []⟩ :=
  (missing_table_skipped envC4 "scope" rfl).1

/-- C6: the orchestration attempts every table of `MIGRATION_ORDER`
exactly once, in that order, regardless of outcomes (the stats keys are
exactly `MIGRATION_ORDER`, which has no duplicates); and any table whose
migration body raises contributes `(0, 0)` to the stats while the run
still covers all the other tables. -/
theorem all_tables_attempted (env : String → TableEnv) :
    ((migrate_all env).map (fun p => p.1) = MIGRATION_ORDER) ∧
    MIGRATION_ORDER.Nodup ∧
    (∀ table e, table ∈ MIGRATION_ORDER →
        migrate_table_run (env table) table = Except.error e →
        (table, 0, 0) ∈ migrate_all env) := by
  refine ⟨?_, ?_, ?_⟩
  · rw [migrate_all, List.map_map]
    exact List.map_id MIGRATION_ORDER
  · decide
  · intro table e hmem herr
    have hz : migrate_table (env table) table =
        ⟨0, 0, [Event.tableError table e, Event.rollback], []⟩ := by
      simp [migrate_table, herr]
    simp only [migrate_all]
    exact List.mem_map.mpr ⟨table, hmem, by simp [hz]⟩

/-- Per-table environments for the C6 witness: every table is absent from
the destination except `user`, whose schema introspection raises. -/
def envAllW : String → TableEnv := fun t =>
  if t = "user" then
    { pgColumns := Except.error "boom"
      countResult := Except.ok 0
      fetchResult := Except.ok []
      insertOk := fun _ => true
      jsonOk := fun _ => true }
  else
    { pgColumns := Except.ok []
      countResult := Except.ok 0
      fetchResult := Except.ok []
      insertOk := fun _ => true
      jsonOk := fun _ => true }

/-- C6 witness: the table whose body raises still contributes a `(0, 0)`
stats entry to the run. -/
theorem all_tables_attempted_witness :
    ("user", 0, 0) ∈ migrate_all envAllW :=
  (all_tables_attempted envAllW).2.2 "user" "boom" (by decide) rfl

/-- C8: every run ends by closing the connections; a connect failure (or a
verification failure) yields exit code 1 with the failure trace printed;
a run where connect and verification succeed exits 0, whatever the
per-table stats (the table environments are arbitrary). -/
theorem exit_codes_and_close (env : RunEnv) :
    ((mainRun env).events.getLast? = some RunEvent.closeConns) ∧
    (∀ e, env.connectResult = Except.error e →
        (mainRun env).exitCode = 1 ∧
        RunEvent.printTrace e ∈ (mainRun env).events) ∧
    (∀ e, env.connectResult = Except.ok () →
        env.verifyResult = Except.error e →
        (mainRun env).exitCode = 1 ∧
        RunEvent.printTrace e ∈ (mainRun env).events) ∧
    (env.connectResult = Except.ok () → env.verifyResult = Except.ok () →
        (mainRun env).exitCode = 0) := by
  rcases env with ⟨hc, tbl, hv⟩
  cases hc with
  | error e => simp [mainRun]
  | ok u =>
      cases u
      cases hv with
      | error e => simp [mainRun]
      | ok u => cases u; simp [mainRun]

/-- Run environment for the C8 witness where everything succeeds. -/
def runEnvOk : RunEnv :=
  { connectResult := Except.ok ()
    tables := fun _ =>
      { pgColumns := Except.ok []
        countResult := Except.ok 0
        fetchResult := Except.ok []
        insertOk := fun _ => true
        jsonOk := fun _ => true }
    verifyResult := Except.ok () }

/-- Run environment for the C8 witness where connecting fails. -/
def runEnvFail : RunEnv :=
  { connectResult := Except.error "connection refused"
    tables := fun _ =>
      { pgColumns := Except.ok []
        countResult := Except.ok 0
        fetchResult := Except.ok []
        insertOk := fun _ => true
        jsonOk := fun _ => true }
    verifyResult := Except.ok () }

/-- C8 witness: a fully successful run exits 0; a run whose connect fails
exits 1 and still closes the connections last. -/
theorem exit_codes_and_close_witness :
    (mainRun runEnvOk).exitCode = 0 ∧
    (mainRun runEnvFail).exitCode = 1 ∧
    (mainRun runEnvFail).events.getLast? = some RunEvent.closeConns :=
  ⟨(exit_codes_and_close runEnvOk).2.2.2 rfl rfl,
   ((exit_codes_and_close runEnvFail).2.1 "connection refused" rfl).1,
   (exit_codes_and_close runEnvFail).1⟩
